import Mathlib

/-!
Verification of the client-side real-time synchronization layer of the
Knowledge Window repository: the WebSocket transport and reconnection
protocol, the encrypted message envelope, the subscription registry, and
the preview-request correlator, as implemented in
frontend/src/hooks/useSecureWebSocket.ts (both the useSecureWebSocket and
useWebSocket hooks), frontend/src/utils/websocketClient.ts,
frontend/src/types/websocket.ts, frontend/src/utils/security.ts, and the
WorkflowBuilder components (NodePreviewHandler, DragDropCanvas).

Stateful hook code is embedded as explicit state-passing functions: each
browser event handler (onopen, onclose, onmessage) and each exposed
callback (sendMessage, on, off) becomes a function from the relevant
state to the updated state together with its observable outputs (frames
written to the socket, error-callback invocations, console logs,
scheduled timer delays). Timer delays are rationals, since the retry
multiplier is 1.5 and JavaScript arithmetic on the values reached here is
exact. Exceptions thrown by library calls are modelled by Option results.
-/

namespace KW

/-! ## Message envelope (frontend/src/types/websocket.ts) -/

/-- The recognized wire message discriminants, from the WebSocketMessageType
enum. -/
inductive WebSocketMessageType where
  | workflow_update
  | node_update
  | preview_request
  | preview_update
  | error
  | document_process
  | url_process
  | notion_process
  | confluence_process
  deriving DecidableEq, Repr

/-- The wire envelope, generic over the payload type, from the
WebSocketMessage interface. -/
structure WebSocketMessage (T : Type) where
  type : WebSocketMessageType
  payload : T
  timestamp : Nat
  sessionId : Option String
  deriving DecidableEq, Repr

/-- The canonical envelope constructor. The source stamps Date.now; the
embedding receives the clock value as the explicit argument now. -/
def createWebSocketMessage {T : Type} (type : WebSocketMessageType) (payload : T)
    (now : Nat) (sessionId : Option String) : WebSocketMessage T :=
  { type := type, payload := payload, timestamp := now, sessionId := sessionId }

/-! ## Secure channel (useSecureWebSocket in useSecureWebSocket.ts,
securityUtils in security.ts)

The outbound path is encrypt(JSON.stringify(message), key) followed by a
socket write; the inbound path is JSON.parse(decrypt(raw, key)). The
serializer pair and the cipher pair are library code (JSON and
CryptoJS.AES), so they enter the embedding as function parameters,
constrained only by their round-trip contracts where a theorem needs
them. -/

/-- Outbound path of the secure channel: serialize the envelope, then
encrypt with the symmetric key (useSecureWebSocket.sendMessage, success
path). -/
def secureSend {J P C : Type} (stringify : WebSocketMessage J → P)
    (encrypt : String → P → C) (key : String) (m : WebSocketMessage J) : C :=
  encrypt key (stringify m)

/-- Inbound path of the secure channel: decrypt with the same key, then
parse back into an envelope (useSecureWebSocket onmessage, success path).
Parsing is fallible, hence the Option. -/
def secureReceive {J P C : Type} (decrypt : String → C → P)
    (parse : P → Option (WebSocketMessage J)) (key : String) (raw : C) :
    Option (WebSocketMessage J) :=
  parse (decrypt key raw)

/-! ## Transport client with backoff and queueing (useWebSocket in
useSecureWebSocket.ts) -/

/-- The INITIAL_RETRY_DELAY constant from the source, in milliseconds. -/
def INITIAL_RETRY_DELAY : ℚ := 1000

/-- The MAX_RETRY_DELAY constant from the source, in milliseconds. -/
def MAX_RETRY_DELAY : ℚ := 30000

/-- The RETRY_MULTIPLIER constant from the source (1.5). -/
def RETRY_MULTIPLIER : ℚ := 3 / 2

/-- The mutable state of the useWebSocket hook: the isConnected flag, the
current retry delay, the pending message queue, plus the observable
history needed by the claims: the frames actually written to the socket,
and how many times connect was invoked from sendMessage. -/
structure TransportState where
  isConnected : Bool
  retryDelay : ℚ
  messageQueue : List String
  sentFrames : List String
  connectCalls : Nat
  deriving DecidableEq, Repr

/-- The hook state at mount time. -/
def initialTransportState : TransportState :=
  { isConnected := true
    retryDelay := INITIAL_RETRY_DELAY
    messageQueue := []
    sentFrames := []
    connectCalls := 0 }

/-- The onopen handler: set isConnected, reset the retry delay to its
floor, write every queued frame to the socket in queue order, clear the
queue. -/
def onOpen (st : TransportState) : TransportState :=
  { st with
    isConnected := true
    retryDelay := INITIAL_RETRY_DELAY
    sentFrames := st.sentFrames ++ st.messageQueue
    messageQueue := [] }

/-- The onclose handler for an unclean close (event.wasClean false): clear
isConnected, compute delay as min(retryDelay * RETRY_MULTIPLIER,
MAX_RETRY_DELAY), store it into retryDelay, and schedule the reconnect
timer with that same computed delay. The second component is the delay
passed to setTimeout. -/
def onCloseUnclean (st : TransportState) : TransportState × Option ℚ :=
  let delay := min (st.retryDelay * RETRY_MULTIPLIER) MAX_RETRY_DELAY
  ({ st with isConnected := false, retryDelay := delay }, some delay)

/-- The onclose handler for a clean close: clear isConnected and schedule
nothing. -/
def onCloseClean (st : TransportState) : TransportState × Option ℚ :=
  ({ st with isConnected := false }, none)

/-- The sendMessage callback: when the socket is open the frame is written
immediately; otherwise it is appended to the pending queue and connect is
invoked. -/
def sendMessage (st : TransportState) (msg : String) : TransportState :=
  if st.isConnected then
    { st with sentFrames := st.sentFrames ++ [msg] }
  else
    { st with
      messageQueue := st.messageQueue ++ [msg]
      connectCalls := st.connectCalls + 1 }

/-- A finite sequence of sendMessage calls, in call order. -/
def sendAll (st : TransportState) (msgs : List String) : TransportState :=
  msgs.foldl sendMessage st

/-- A disconnected hook state with empty queue and history, used as a
concrete evaluation point. -/
def demoDisconnected : TransportState :=
  { isConnected := false
    retryDelay := INITIAL_RETRY_DELAY
    messageQueue := []
    sentFrames := []
    connectCalls := 0 }

/-- Running sendAll from a disconnected state only appends to the queue
and counts connect calls; nothing is written to the socket and the
connection fields are untouched. -/
theorem sendAll_disconnected (msgs : List String) (st : TransportState)
    (h : st.isConnected = false) :
    (sendAll st msgs).isConnected = false
    ∧ (sendAll st msgs).retryDelay = st.retryDelay
    ∧ (sendAll st msgs).messageQueue = st.messageQueue ++ msgs
    ∧ (sendAll st msgs).sentFrames = st.sentFrames
    ∧ (sendAll st msgs).connectCalls = st.connectCalls + msgs.length := by
  induction msgs generalizing st with
  | nil => simp [sendAll, h]
  | cons m ms ih =>
    have hsend : sendMessage st m =
        { st with
          messageQueue := st.messageQueue ++ [m]
          connectCalls := st.connectCalls + 1 } := by
      simp [sendMessage, h]
    have hstep : sendAll st (m :: ms) = sendAll (sendMessage st m) ms := rfl
    have hconn : (sendMessage st m).isConnected = false := by rw [hsend]; exact h
    obtain ⟨i1, i2, i3, i4, i5⟩ := ih (sendMessage st m) hconn
    rw [hstep]
    refine ⟨i1, ?_, ?_, ?_, ?_⟩
    · rw [i2, hsend]
    · rw [i3, hsend]
      simp
    · rw [i4, hsend]
    · rw [i5, hsend]
      simp [Nat.add_assoc, Nat.add_comm 1 ms.length]

/-! ## Claims C1 and C2 -/

/-- Claim C1 counterexample: with retryDelay at its initial floor of
1000 ms, the first reconnect after an unclean close is scheduled at
1500 ms, not at the pre-update value 1000 ms that the claim asserts. -/
theorem retry_delay_first_reconnect_cex :
    (onCloseUnclean initialTransportState).2 = some 1500
    ∧ ¬ (onCloseUnclean initialTransportState).2 = some 1000 := by
  have h : (onCloseUnclean initialTransportState).2
      = some (min ((1000 : ℚ) * (3 / 2)) 30000) := rfl
  rw [h]
  norm_num [min_def]

/-- Claim C1 (amended): on every unclean close the code first computes
min(retryDelay * RETRY_MULTIPLIER, MAX_RETRY_DELAY), stores it into
retryDelay, and schedules the reconnect attempt after that updated value
(not the pre-update one); the stored delay never exceeds MAX_RETRY_DELAY,
and from the initial 1000 ms floor the first attempt is scheduled at
1500 ms and the second at 2250 ms. -/
theorem retry_backoff_schedules_updated_delay (st : TransportState) :
    (onCloseUnclean st).2 = some (min (st.retryDelay * RETRY_MULTIPLIER) MAX_RETRY_DELAY)
    ∧ (onCloseUnclean st).1.retryDelay = min (st.retryDelay * RETRY_MULTIPLIER) MAX_RETRY_DELAY
    ∧ (onCloseUnclean st).1.isConnected = false
    ∧ (onCloseUnclean st).1.retryDelay ≤ MAX_RETRY_DELAY
    ∧ (onCloseUnclean initialTransportState).2 = some 1500
    ∧ (onCloseUnclean (onCloseUnclean initialTransportState).1).2 = some 2250 := by
  refine ⟨rfl, rfl, rfl, min_le_right _ _, ?_, ?_⟩
  · have h : (onCloseUnclean initialTransportState).2
        = some (min ((1000 : ℚ) * (3 / 2)) 30000) := rfl
    rw [h]
    norm_num [min_def]
  · have h : (onCloseUnclean (onCloseUnclean initialTransportState).1).2
        = some (min (min ((1000 : ℚ) * (3 / 2)) 30000 * (3 / 2)) 30000) := rfl
    rw [h]
    norm_num [min_def]

/-- Claim C2: every message sent while the transport is disconnected is
appended to the pending queue (triggering a connect attempt), nothing is
transmitted while disconnected, and on the next successful open the
queued messages are written to the socket exactly once, in original call
order, after which the queue is empty; a send while connected transmits
immediately without touching the queue. -/
theorem queued_sends_flushed_in_order (st : TransportState) (msgs : List String)
    (hdisc : st.isConnected = false) :
    (sendAll st msgs).messageQueue = st.messageQueue ++ msgs
    ∧ (sendAll st msgs).sentFrames = st.sentFrames
    ∧ (sendAll st msgs).connectCalls = st.connectCalls + msgs.length
    ∧ (onOpen (sendAll st msgs)).sentFrames = st.sentFrames ++ (st.messageQueue ++ msgs)
    ∧ (onOpen (sendAll st msgs)).messageQueue = []
    ∧ (∀ st2 : TransportState, ∀ m : String, st2.isConnected = true →
        (sendMessage st2 m).sentFrames = st2.sentFrames ++ [m]
        ∧ (sendMessage st2 m).messageQueue = st2.messageQueue) := by
  obtain ⟨h1, h2, h3, h4, h5⟩ := sendAll_disconnected msgs st hdisc
  refine ⟨h3, h4, h5, ?_, rfl, ?_⟩
  · show (sendAll st msgs).sentFrames ++ (sendAll st msgs).messageQueue
        = st.sentFrames ++ (st.messageQueue ++ msgs)
    rw [h3, h4]
  · intro st2 m hconn
    constructor
    · simp [sendMessage, hconn]
    · simp [sendMessage, hconn]

/-- Claim C2 witness: a concrete disconnected state with two queued
sends, evaluated through the theorem. -/
theorem queued_sends_flushed_in_order_witness :
    demoDisconnected.isConnected = false
    ∧ ((sendAll demoDisconnected ["a", "b"]).messageQueue
          = demoDisconnected.messageQueue ++ ["a", "b"]
        ∧ (sendAll demoDisconnected ["a", "b"]).sentFrames = demoDisconnected.sentFrames
        ∧ (sendAll demoDisconnected ["a", "b"]).connectCalls
          = demoDisconnected.connectCalls + (["a", "b"] : List String).length
        ∧ (onOpen (sendAll demoDisconnected ["a", "b"])).sentFrames
          = demoDisconnected.sentFrames ++ (demoDisconnected.messageQueue ++ ["a", "b"])
        ∧ (onOpen (sendAll demoDisconnected ["a", "b"])).messageQueue = []
        ∧ (∀ st2 : TransportState, ∀ m : String, st2.isConnected = true →
            (sendMessage st2 m).sentFrames = st2.sentFrames ++ [m]
            ∧ (sendMessage st2 m).messageQueue = st2.messageQueue)) :=
  ⟨rfl, queued_sends_flushed_in_order demoDisconnected ["a", "b"] rfl⟩

/-! ## Claim C3: secure channel round-trip -/

/-- Claim C3: for every message type, payload and key, an envelope built
by createWebSocketMessage, serialized, encrypted with the symmetric key,
then decrypted with the same key and parsed back, yields the original
envelope; in particular its type and payload fields are preserved. The
serializer pair and cipher pair are the JSON and CryptoJS.AES library
calls, assumed only to satisfy their round-trip contracts. -/
theorem secure_channel_roundtrip {J P C : Type}
    (stringify : WebSocketMessage J → P) (encrypt : String → P → C)
    (decrypt : String → C → P) (parse : P → Option (WebSocketMessage J))
    (key : String)
    (hdec : ∀ p, decrypt key (encrypt key p) = p)
    (hparse : ∀ m, parse (stringify m) = some m)
    (t : WebSocketMessageType) (payload : J) (now : Nat) (sid : Option String) :
    ∃ m : WebSocketMessage J,
      secureReceive decrypt parse key
          (secureSend stringify encrypt key (createWebSocketMessage t payload now sid))
        = some m
      ∧ m.type = t ∧ m.payload = payload := by
  refine ⟨createWebSocketMessage t payload now sid, ?_, rfl, rfl⟩
  unfold secureReceive secureSend
  rw [hdec, hparse]

/-- Claim C3 witness: the round-trip theorem evaluated at a concrete
codec satisfying the contracts (identity cipher, identity serializer)
and a concrete envelope. -/
theorem secure_channel_roundtrip_witness :
    (∀ p : WebSocketMessage Nat, (fun (_ : String) (c : WebSocketMessage Nat) => c) "k"
        ((fun (_ : String) (p2 : WebSocketMessage Nat) => p2) "k" p) = p)
    ∧ ∃ m : WebSocketMessage Nat,
        secureReceive (fun _ c => c) some "k"
            (secureSend id (fun _ p => p) "k"
              (createWebSocketMessage WebSocketMessageType.preview_update 7 0 none))
          = some m
        ∧ m.type = WebSocketMessageType.preview_update ∧ m.payload = 7 :=
  ⟨fun _ => rfl,
   secure_channel_roundtrip id (fun _ p => p) (fun _ c => c) some "k"
     (fun _ => rfl) (fun _ => rfl)
     WebSocketMessageType.preview_update 7 0 none⟩

/-! ## Reconnection-capped client (frontend/src/utils/websocketClient.ts) -/

/-- The reconnection-relevant state of the WebSocketClient class: its
reconnectAttempts counter. -/
structure ClientState where
  reconnectAttempts : Nat
  deriving DecidableEq, Repr

/-- The maxReconnectAttempts constant from the source. -/
def maxReconnectAttempts : Nat := 5

/-- The reconnectDelay constant from the source, in milliseconds. -/
def reconnectDelay : Nat := 1000

/-- The WebSocketClient handleReconnect method: when the counter is below the
maximum, increment it and schedule a reconnect after
reconnectDelay * 2 ^ (attempts - 1) using the incremented counter;
otherwise log and schedule nothing. The second component is the delay
passed to setTimeout. -/
def handleReconnect (st : ClientState) : ClientState × Option Nat :=
  if st.reconnectAttempts < maxReconnectAttempts then
    let n := st.reconnectAttempts + 1
    (⟨n⟩, some (reconnectDelay * 2 ^ (n - 1)))
  else
    (st, none)

/-- The WebSocketClient onopen handler resets the reconnectAttempts counter. -/
def clientOnOpen (_ : ClientState) : ClientState := ⟨0⟩

/-- Iterated state of n consecutive handleReconnect calls after a connection loss, starting
from a freshly-reset counter; the second component is the delay scheduled
by the n-th call. -/
def reconnectIter : Nat → ClientState × Option Nat
  | 0 => (⟨0⟩, none)
  | n + 1 => handleReconnect (reconnectIter n).1

/-- The counter after n consecutive reconnect attempts from zero is
min n 5. -/
theorem reconnectIter_attempts (n : Nat) :
    (reconnectIter n).1.reconnectAttempts = min n maxReconnectAttempts := by
  induction n with
  | zero => simp [reconnectIter]
  | succ k ih =>
    show (handleReconnect (reconnectIter k).1).1.reconnectAttempts
        = min (k + 1) maxReconnectAttempts
    unfold handleReconnect
    unfold maxReconnectAttempts at *
    by_cases hk : (reconnectIter k).1.reconnectAttempts < 5
    · rw [if_pos hk]
      show (reconnectIter k).1.reconnectAttempts + 1 = min (k + 1) 5
      omega
    · rw [if_neg hk]
      show (reconnectIter k).1.reconnectAttempts = min (k + 1) 5
      omega

/-- Claim C9: the reconnectAttempts counter never exceeds 5; the n-th
consecutive reconnection attempt (1 ≤ n ≤ 5) is scheduled after
1000 * 2 ^ (n - 1) milliseconds; once the counter reaches 5 no further
attempt is scheduled; and a successful open resets the counter to 0. -/
theorem reconnect_attempts_capped (st : ClientState) (n : Nat)
    (hst : st.reconnectAttempts ≤ maxReconnectAttempts) :
    (handleReconnect st).1.reconnectAttempts ≤ maxReconnectAttempts
    ∧ (clientOnOpen st).reconnectAttempts = 0
    ∧ (st.reconnectAttempts = maxReconnectAttempts → (handleReconnect st).2 = none)
    ∧ (1 ≤ n → n ≤ maxReconnectAttempts →
        (reconnectIter n).2 = some (reconnectDelay * 2 ^ (n - 1)))
    ∧ (maxReconnectAttempts < n → (reconnectIter n).2 = none) := by
  refine ⟨?_, rfl, ?_, ?_, ?_⟩
  · unfold handleReconnect maxReconnectAttempts at *
    by_cases h : st.reconnectAttempts < 5
    · rw [if_pos h]
      show st.reconnectAttempts + 1 ≤ 5
      omega
    · rw [if_neg h]
      show st.reconnectAttempts ≤ 5
      omega
  · intro heq
    unfold handleReconnect
    rw [if_neg (by omega)]
  · intro h1 h5
    obtain ⟨k, rfl⟩ : ∃ k, n = k + 1 := ⟨n - 1, by omega⟩
    show (handleReconnect (reconnectIter k).1).2 = some (reconnectDelay * 2 ^ (k + 1 - 1))
    unfold handleReconnect
    rw [reconnectIter_attempts k]
    unfold maxReconnectAttempts at *
    rw [if_pos (by omega)]
    have hmin : min k 5 = k := by omega
    rw [hmin]
  · intro hgt
    obtain ⟨k, rfl⟩ : ∃ k, n = k + 1 := ⟨n - 1, by omega⟩
    show (handleReconnect (reconnectIter k).1).2 = none
    unfold handleReconnect
    rw [reconnectIter_attempts k]
    unfold maxReconnectAttempts at *
    rw [if_neg (by omega)]

/-- Claim C9 witness: the capped-reconnect theorem evaluated at a counter
of 5 and at the third consecutive attempt. -/
theorem reconnect_attempts_capped_witness :
    (⟨5⟩ : ClientState).reconnectAttempts ≤ maxReconnectAttempts
    ∧ ((handleReconnect ⟨5⟩).1.reconnectAttempts ≤ maxReconnectAttempts
        ∧ (clientOnOpen ⟨5⟩).reconnectAttempts = 0
        ∧ ((⟨5⟩ : ClientState).reconnectAttempts = maxReconnectAttempts →
            (handleReconnect ⟨5⟩).2 = none)
        ∧ (1 ≤ 3 → 3 ≤ maxReconnectAttempts →
            (reconnectIter 3).2 = some (reconnectDelay * 2 ^ (3 - 1)))
        ∧ (maxReconnectAttempts < 3 → (reconnectIter 3).2 = none)) :=
  ⟨by decide, reconnect_attempts_capped ⟨5⟩ 3 (by decide)⟩

/-! ## Secure hook inbound and outbound error paths (useSecureWebSocket) -/

/-- The mutable refs of the useSecureWebSocket hook: whether the socket
readyState is OPEN, and whether a reconnect timer is pending. The hook
keeps no message queue. -/
structure SecureChannelState where
  readyStateOpen : Bool
  reconnectPending : Bool
  deriving DecidableEq, Repr

/-- The useSecureWebSocket onmessage handler: decrypt the raw frame, parse
the plaintext as JSON; on success deliver the envelope to the onMessage
callback, on any failure invoke the onError callback with the fixed
string. A thrown library exception is modelled as a none result. Returns
the envelopes delivered and the error strings reported; the handler
touches no other state. -/
def secureProcessRaw {C P J : Type} (decrypt : C → Option P)
    (parse : P → Option (WebSocketMessage J)) (raw : C) :
    List (WebSocketMessage J) × List String :=
  match decrypt raw with
  | none => ([], ["Failed to process message"])
  | some plain =>
    match parse plain with
    | none => ([], ["Failed to process message"])
    | some m => ([m], [])

/-- The useSecureWebSocket sendMessage callback: when the socket is not
OPEN, report the fixed error; when OPEN, encrypt (fallibly) and write the
ciphertext. Returns the updated state, the ciphertext frames written, and
the error strings reported. -/
def secureSendMessage {J C : Type} (st : SecureChannelState)
    (encrypt : WebSocketMessage J → Option C) (m : WebSocketMessage J) :
    SecureChannelState × List C × List String :=
  if st.readyStateOpen then
    match encrypt m with
    | some c => (st, [c], [])
    | none => (st, [], ["Failed to send message"])
  else
    (st, [], ["WebSocket is not connected"])

/-- Claim C6: an inbound raw frame whose decryption or parsing fails is
dropped: no envelope is delivered to any handler, the error callback
receives exactly the fixed string, and the outcome is the same for every
failing frame, so the corrupt payload is not exposed. -/
theorem corrupt_frame_dropped {C P J : Type} (decrypt : C → Option P)
    (parse : P → Option (WebSocketMessage J)) (raw : C)
    (hfail : Option.bind (decrypt raw) parse = none) :
    secureProcessRaw decrypt parse raw = ([], ["Failed to process message"])
    ∧ (secureProcessRaw decrypt parse raw).1 = []
    ∧ (∀ raw2 : C, Option.bind (decrypt raw2) parse = none →
        secureProcessRaw decrypt parse raw2 = secureProcessRaw decrypt parse raw) := by
  have hmain : ∀ r : C, Option.bind (decrypt r) parse = none →
      secureProcessRaw decrypt parse r = ([], ["Failed to process message"]) := by
    intro r hr
    unfold secureProcessRaw
    cases hd : decrypt r with
    | none => rfl
    | some plain =>
      rw [hd] at hr
      simp at hr
      simp [hr]
  refine ⟨hmain raw hfail, ?_, ?_⟩
  · rw [hmain raw hfail]
  · intro raw2 h2
    rw [hmain raw2 h2, hmain raw hfail]

/-- Claim C6 witness: a concrete frame whose decryption fails, evaluated
through the theorem. -/
theorem corrupt_frame_dropped_witness :
    Option.bind ((fun _ : Nat => (none : Option Nat)) 0)
        (fun _ : Nat => (none : Option (WebSocketMessage Nat))) = none
    ∧ (secureProcessRaw (fun _ : Nat => (none : Option Nat))
          (fun _ : Nat => (none : Option (WebSocketMessage Nat))) 0
        = ([], ["Failed to process message"])
      ∧ (secureProcessRaw (fun _ : Nat => (none : Option Nat))
            (fun _ : Nat => (none : Option (WebSocketMessage Nat))) 0).1 = []
      ∧ (∀ raw2 : Nat,
          Option.bind ((fun _ : Nat => (none : Option Nat)) raw2)
              (fun _ : Nat => (none : Option (WebSocketMessage Nat))) = none →
          secureProcessRaw (fun _ : Nat => (none : Option Nat))
              (fun _ : Nat => (none : Option (WebSocketMessage Nat))) raw2
            = secureProcessRaw (fun _ : Nat => (none : Option Nat))
              (fun _ : Nat => (none : Option (WebSocketMessage Nat))) 0)) :=
  ⟨rfl, corrupt_frame_dropped (fun _ => none) (fun _ => none) 0 rfl⟩

/-- Claim C10: a sendMessage call on the secure channel while the socket
is not OPEN writes no frame, leaves the channel state (including the
absence of any queue) unchanged, and invokes the error callback with
exactly the string WebSocket is not connected. -/
theorem secure_send_disconnected_discards {J C : Type} (st : SecureChannelState)
    (encrypt : WebSocketMessage J → Option C) (m : WebSocketMessage J)
    (hclosed : st.readyStateOpen = false) :
    secureSendMessage st encrypt m = (st, [], ["WebSocket is not connected"]) := by
  unfold secureSendMessage
  rw [hclosed]
  rfl

/-- Claim C10 witness: a concrete closed channel and envelope, evaluated
through the theorem. -/
theorem secure_send_disconnected_discards_witness :
    ({ readyStateOpen := false, reconnectPending := false } :
        SecureChannelState).readyStateOpen = false
    ∧ secureSendMessage { readyStateOpen := false, reconnectPending := false }
        (fun mm : WebSocketMessage Nat => some mm)
        (createWebSocketMessage WebSocketMessageType.node_update 3 0 none)
      = ({ readyStateOpen := false, reconnectPending := false }, [],
          ["WebSocket is not connected"]) :=
  ⟨rfl,
   secure_send_disconnected_discards
     { readyStateOpen := false, reconnectPending := false }
     (fun mm => some mm)
     (createWebSocketMessage WebSocketMessageType.node_update 3 0 none) rfl⟩

/-! ## Preview request correlator
(WorkflowBuilder/NodePreviewHandler.tsx) -/

/-- The payload shape accessed by the NodePreviewHandler onMessage switch:
the node identifier, the preview text, and the error text. -/
structure WsPayload where
  nodeId : String
  preview : String
  error : String
  deriving DecidableEq, Repr

/-- The payload emitted by a preview request: node identifier, node kind
tag, and the node data (abstracted to a string). -/
structure PreviewRequestPayload where
  nodeId : String
  nodeType : String
  data : String
  deriving DecidableEq, Repr

/-- The per-node preview state machine of NodePreviewHandler. The source
replaces the whole state object on each transition, so each constructor
carries exactly what that object holds. -/
inductive PreviewState where
  | idle
  | loading
  | success (data : WsPayload)
  | error (msg : String)
  deriving DecidableEq, Repr

/-- The NodePreviewHandler onMessage switch for the component tracking
nodeId: a preview_update whose payload nodeId matches stores the payload
as success; an error envelope whose payload nodeId matches stores the
error text; everything else leaves the state untouched. -/
def previewOnMessage (nodeId : String) (st : PreviewState)
    (msg : WebSocketMessage WsPayload) : PreviewState :=
  match msg.type with
  | WebSocketMessageType.preview_update =>
    if msg.payload.nodeId = nodeId then PreviewState.success msg.payload else st
  | WebSocketMessageType.error =>
    if msg.payload.nodeId = nodeId then PreviewState.error msg.payload.error else st
  | _ => st

/-- The requestPreview effect: set the state to loading and emit a
preview_request envelope carrying the node identifier, kind and data. -/
def requestPreview (nodeId nodeType data : String) (now : Nat) :
    PreviewState × WebSocketMessage PreviewRequestPayload :=
  (PreviewState.loading,
   createWebSocketMessage WebSocketMessageType.preview_request
     ⟨nodeId, nodeType, data⟩ now none)

/-- Claim C4: requestPreview puts the tracked node into the loading
state and emits a preview_request for it; a preview_update whose payload
nodeId matches then moves the state from loading to success storing the
provided payload; and any envelope whose payload nodeId differs from the
tracked node leaves the tracked state untouched. -/
theorem preview_request_correlation (nodeId nodeType data : String) (now : Nat)
    (upd : WebSocketMessage WsPayload)
    (hty : upd.type = WebSocketMessageType.preview_update)
    (hid : upd.payload.nodeId = nodeId) :
    (requestPreview nodeId nodeType data now).1 = PreviewState.loading
    ∧ (requestPreview nodeId nodeType data now).2.type
        = WebSocketMessageType.preview_request
    ∧ (requestPreview nodeId nodeType data now).2.payload.nodeId = nodeId
    ∧ previewOnMessage nodeId (requestPreview nodeId nodeType data now).1 upd
        = PreviewState.success upd.payload
    ∧ (∀ st : PreviewState, ∀ msg : WebSocketMessage WsPayload,
        msg.payload.nodeId ≠ nodeId → previewOnMessage nodeId st msg = st) := by
  refine ⟨rfl, rfl, rfl, ?_, ?_⟩
  · unfold previewOnMessage
    rw [hty]
    simp [hid]
  · intro st msg hne
    unfold previewOnMessage
    cases msg.type <;> simp [hne]

/-- Claim C4 witness: a concrete request for node n1 followed by a
matching preview_update, evaluated through the theorem. -/
theorem preview_request_correlation_witness :
    (createWebSocketMessage WebSocketMessageType.preview_update
        (⟨"n1", "text", ""⟩ : WsPayload) 5 none).type
      = WebSocketMessageType.preview_update
    ∧ (createWebSocketMessage WebSocketMessageType.preview_update
        (⟨"n1", "text", ""⟩ : WsPayload) 5 none).payload.nodeId = "n1"
    ∧ ((requestPreview "n1" "processor" "d" 0).1 = PreviewState.loading
      ∧ (requestPreview "n1" "processor" "d" 0).2.type
          = WebSocketMessageType.preview_request
      ∧ (requestPreview "n1" "processor" "d" 0).2.payload.nodeId = "n1"
      ∧ previewOnMessage "n1" (requestPreview "n1" "processor" "d" 0).1
          (createWebSocketMessage WebSocketMessageType.preview_update
            (⟨"n1", "text", ""⟩ : WsPayload) 5 none)
        = PreviewState.success (⟨"n1", "text", ""⟩ : WsPayload)
      ∧ (∀ st : PreviewState, ∀ msg : WebSocketMessage WsPayload,
          msg.payload.nodeId ≠ "n1" → previewOnMessage "n1" st msg = st)) :=
  ⟨rfl, rfl,
   preview_request_correlation "n1" "processor" "d" 0
     (createWebSocketMessage WebSocketMessageType.preview_update
       (⟨"n1", "text", ""⟩ : WsPayload) 5 none) rfl rfl⟩

/-! ## Subscription registry (useWebSocket: on, off, onmessage dispatch)

A JavaScript handler is a function reference; handler identity (the Set
membership test) is by reference. The embedding gives each handler a
numeric identity and a behaviour that either returns or throws, the
throw modelled as an Except error. The registry is the Map from type
string to the insertion-ordered list of registered handlers. -/

/-- A message handler: its reference identity and its behaviour on a
payload, where an Except error is a thrown exception. -/
structure Handler (J : Type) where
  hid : Nat
  run : J → Except String Unit

/-- The eventHandlers map: type string to insertion-ordered handler
list. -/
abbrev Registry (J : Type) := List (String × List (Handler J))

/-- Map.get: the handler list registered under a type, if any. -/
def regGet {J : Type} : Registry J → String → Option (List (Handler J))
  | [], _ => none
  | (k, v) :: rest, t => if k = t then some v else regGet rest t

/-- The handlers currently registered for a type (empty when the type has
no entry). -/
def handlersFor {J : Type} (reg : Registry J) (t : String) : List (Handler J) :=
  (regGet reg t).getD []

/-- The on callback: create the entry when absent, then Set.add the
handler, which is a no-op when the same reference is already present and
otherwise appends in insertion order. -/
def onRegister {J : Type} : Registry J → String → Handler J → Registry J
  | [], t, h => [(t, [h])]
  | (k, v) :: rest, t, h =>
    if k = t then
      (k, if v.any (fun h2 => h2.hid == h.hid) then v else v ++ [h]) :: rest
    else
      (k, v) :: onRegister rest t h

/-- The off callback: Set.delete the handler from the entry for the type,
a no-op when absent. -/
def offRegister {J : Type} : Registry J → String → Handler J → Registry J
  | [], _, _ => []
  | (k, v) :: rest, t, h =>
    if k = t then (k, v.filter (fun h2 => h2.hid != h.hid)) :: rest
    else (k, v) :: offRegister rest t h

/-- Whether a handler throws on a given payload. -/
def throws {J : Type} (p : J) (h : Handler J) : Bool :=
  match h.run p with
  | Except.ok _ => false
  | Except.error _ => true

/-- The observable outcome of one dispatch: the handler identities
invoked, in invocation order; the identities whose invocation threw (the
exception being caught); and the console error lines produced. -/
structure DispatchResult where
  invoked : List Nat
  caught : List Nat
  logs : List String
  deriving DecidableEq, Repr

/-- One iteration of the dispatch forEach loop: invoke the handler inside
try/catch; a thrown exception is recorded and logged and the loop
continues. -/
def runHandlerStep {J : Type} (t : String) (p : J) (acc : DispatchResult)
    (h : Handler J) : DispatchResult :=
  match h.run p with
  | Except.ok _ => { acc with invoked := acc.invoked ++ [h.hid] }
  | Except.error _ =>
    { invoked := acc.invoked ++ [h.hid]
      caught := acc.caught ++ [h.hid]
      logs := acc.logs ++ ["Error in message handler for type " ++ t] }

/-- The useWebSocket onmessage dispatch for a decoded envelope of type t
with payload p: look the type up in the map and, when an entry exists,
invoke each registered handler in order, each inside try/catch. A type
with no entry triggers nothing at all. -/
def dispatch {J : Type} (reg : Registry J) (t : String) (p : J) : DispatchResult :=
  match regGet reg t with
  | none => { invoked := [], caught := [], logs := [] }
  | some hs => hs.foldl (runHandlerStep t p) { invoked := [], caught := [], logs := [] }

/-- Unrolling the dispatch loop: invocations accumulate exactly the
handler identities in list order, and caught throwers with their logs. -/
theorem dispatch_foldl {J : Type} (t : String) (p : J) (hs : List (Handler J))
    (acc : DispatchResult) :
    (hs.foldl (runHandlerStep t p) acc).invoked = acc.invoked ++ hs.map Handler.hid
    ∧ (hs.foldl (runHandlerStep t p) acc).caught
        = acc.caught ++ (hs.filter (throws p)).map Handler.hid
    ∧ (hs.foldl (runHandlerStep t p) acc).logs
        = acc.logs ++ (hs.filter (throws p)).map
            (fun _ => "Error in message handler for type " ++ t) := by
  induction hs generalizing acc with
  | nil => simp
  | cons h rest ih =>
    obtain ⟨i1, i2, i3⟩ := ih (runHandlerStep t p acc h)
    have hfold : (h :: rest).foldl (runHandlerStep t p) acc
        = rest.foldl (runHandlerStep t p) (runHandlerStep t p acc h) := rfl
    cases hr : h.run p with
    | ok u =>
      have hstep : runHandlerStep t p acc h
          = { acc with invoked := acc.invoked ++ [h.hid] } := by
        unfold runHandlerStep
        rw [hr]
      have hth : throws p h = false := by
        unfold throws
        rw [hr]
      refine ⟨?_, ?_, ?_⟩
      · rw [hfold, i1, hstep]
        simp
      · rw [hfold, i2, hstep]
        simp [hth]
      · rw [hfold, i3, hstep]
        simp [hth]
    | error e =>
      have hstep : runHandlerStep t p acc h
          = { invoked := acc.invoked ++ [h.hid]
              caught := acc.caught ++ [h.hid]
              logs := acc.logs ++ ["Error in message handler for type " ++ t] } := by
        unfold runHandlerStep
        rw [hr]
      have hth : throws p h = true := by
        unfold throws
        rw [hr]
      refine ⟨?_, ?_, ?_⟩
      · rw [hfold, i1, hstep]
        simp
      · rw [hfold, i2, hstep]
        simp [hth]
      · rw [hfold, i3, hstep]
        simp [hth]

/-- Dispatch depends only on the handler list registered for the
dispatched type. -/
theorem dispatch_eq_foldl {J : Type} (reg : Registry J) (t : String) (p : J) :
    dispatch reg t p
      = (handlersFor reg t).foldl (runHandlerStep t p)
          { invoked := [], caught := [], logs := [] } := by
  unfold dispatch handlersFor
  cases regGet reg t with
  | none => rfl
  | some hs => rfl

/-- Registering under a type appends at the end of that type's list,
unless the same reference is already present, in which case nothing
changes. -/
theorem handlersFor_onRegister {J : Type} (reg : Registry J) (t : String)
    (h : Handler J) :
    handlersFor (onRegister reg t h) t
      = if (handlersFor reg t).any (fun h2 => h2.hid == h.hid)
        then handlersFor reg t
        else handlersFor reg t ++ [h] := by
  induction reg with
  | nil =>
    simp [handlersFor, onRegister, regGet]
  | cons kv rest ih =>
    obtain ⟨k, v⟩ := kv
    simp only [onRegister]
    by_cases hk : k = t
    · rw [if_pos hk]
      subst hk
      have hv : handlersFor ((k, v) :: rest) k = v := by
        simp [handlersFor, regGet]
      have hx : handlersFor
            ((k, if v.any (fun h2 => h2.hid == h.hid) then v else v ++ [h]) :: rest) k
          = (if v.any (fun h2 => h2.hid == h.hid) then v else v ++ [h]) := by
        simp [handlersFor, regGet]
      rw [hx, hv]
    · rw [if_neg hk]
      have h1 : handlersFor ((k, v) :: onRegister rest t h) t
          = handlersFor (onRegister rest t h) t := by
        simp [handlersFor, regGet, hk]
      have h2 : handlersFor ((k, v) :: rest) t = handlersFor rest t := by
        simp [handlersFor, regGet, hk]
      rw [h1, h2, ih]

/-- Claim C5: dispatching a decoded envelope of type t invokes exactly
the handlers currently registered for t, in registration order; a
handler that throws is caught and logged and every remaining handler for
the same message is still invoked (the invocation list is the full
registered list regardless of which handlers throw); handlers registered
under any other type play no role in the outcome; and registration
appends in order with duplicate registration a no-op. -/
theorem dispatch_invokes_registered {J : Type} (reg : Registry J) (t : String)
    (p : J) :
    (dispatch reg t p).invoked = (handlersFor reg t).map Handler.hid
    ∧ (dispatch reg t p).caught = ((handlersFor reg t).filter (throws p)).map Handler.hid
    ∧ (dispatch reg t p).logs
        = ((handlersFor reg t).filter (throws p)).map
            (fun _ => "Error in message handler for type " ++ t)
    ∧ (∀ h : Handler J,
        handlersFor (onRegister reg t h) t
          = if (handlersFor reg t).any (fun h2 => h2.hid == h.hid)
            then handlersFor reg t
            else handlersFor reg t ++ [h])
    ∧ (∀ reg2 : Registry J, handlersFor reg2 t = handlersFor reg t →
        dispatch reg2 t p = dispatch reg t p) := by
  obtain ⟨f1, f2, f3⟩ :=
    dispatch_foldl t p (handlersFor reg t) { invoked := [], caught := [], logs := [] }
  refine ⟨?_, ?_, ?_, fun h => handlersFor_onRegister reg t h, ?_⟩
  · rw [dispatch_eq_foldl, f1]
    simp
  · rw [dispatch_eq_foldl, f2]
    simp
  · rw [dispatch_eq_foldl, f3]
    simp
  · intro reg2 hsame
    rw [dispatch_eq_foldl, dispatch_eq_foldl, hsame]

/-- A two-handler registry for type x: one handler returns, one throws.
Used as a concrete evaluation point. -/
def demoRegistry : Registry Nat :=
  [("x", [{ hid := 1, run := fun _ => Except.ok () },
          { hid := 2, run := fun _ => Except.error "boom" }])]

/-- Claim C5 witness: the demo registry with one ok handler and one
throwing handler for type x, dispatched at a concrete payload, evaluated
through the theorem. -/
theorem dispatch_invokes_registered_witness :
    (dispatch demoRegistry "x" (0 : Nat)).invoked
      = (handlersFor demoRegistry "x").map Handler.hid
    ∧ (∀ reg2 : Registry Nat,
        handlersFor reg2 "x" = handlersFor demoRegistry "x" →
        dispatch reg2 "x" (0 : Nat) = dispatch demoRegistry "x" (0 : Nat)) :=
  ⟨(dispatch_invokes_registered demoRegistry "x" (0 : Nat)).1,
   (dispatch_invokes_registered demoRegistry "x" (0 : Nat)).2.2.2.2⟩

/-! ## Claim C8: unknown message types -/

/-- The WebSocketProvider handleMessage switch (frontend/src/contexts
WebSocketProvider): known types dispatch a window event, the error type
also writes a console error, and the default case writes a console log.
First component: window events dispatched; second: console lines. -/
def handleProviderMessage (mtype : String) : List String × List String :=
  if mtype = "document_processed" then (["documentProcessed"], [])
  else if mtype = "workflow_updated" then (["workflowUpdated"], [])
  else if mtype = "element_updated" then (["elementUpdated"], [])
  else if mtype = "error" then (["wsError"], ["WebSocket error:"])
  else ([], ["Received message:"])

/-- Claim C8 counterexample: in the useWebSocket dispatcher an envelope
whose type has no registered handler is dropped with no trace at all: no
handler is invoked and nothing is logged, contradicting the claim that
such a message is always routed to a log path. -/
theorem unknown_type_silent_drop_cex :
    (dispatch ([] : Registry Nat) "mystery" 0).logs = []
    ∧ (dispatch ([] : Registry Nat) "mystery" 0).invoked = []
    ∧ (dispatch ([] : Registry Nat) "mystery" 0).caught = [] :=
  ⟨rfl, rfl, rfl⟩

/-- Claim C8 (amended): an envelope whose type has no entry in the
useWebSocket handler registry is ignored silently: zero handlers run,
nothing is logged, and no error is surfaced; in the WebSocketProvider
switch dispatcher, by contrast, an unrecognized type reaches the default
case, which logs the message and dispatches no event and no error. -/
theorem unknown_type_handling {J : Type} (reg : Registry J) (t : String) (p : J)
    (hnone : regGet reg t = none) :
    dispatch reg t p = { invoked := [], caught := [], logs := [] }
    ∧ (∀ s : String, s ≠ "document_processed" → s ≠ "workflow_updated" →
        s ≠ "element_updated" → s ≠ "error" →
        handleProviderMessage s = ([], ["Received message:"])) := by
  constructor
  · unfold dispatch
    rw [hnone]
  · intro s h1 h2 h3 h4
    unfold handleProviderMessage
    rw [if_neg h1, if_neg h2, if_neg h3, if_neg h4]

/-- Claim C8 witness: the empty registry and a concrete unrecognized
type, evaluated through the theorem. -/
theorem unknown_type_handling_witness :
    regGet ([] : Registry Nat) "mystery" = none
    ∧ (dispatch ([] : Registry Nat) "mystery" (0 : Nat)
          = { invoked := [], caught := [], logs := [] }
      ∧ (∀ s : String, s ≠ "document_processed" → s ≠ "workflow_updated" →
          s ≠ "element_updated" → s ≠ "error" →
          handleProviderMessage s = ([], ["Received message:"]))) :=
  ⟨rfl, unknown_type_handling ([] : Registry Nat) "mystery" (0 : Nat) rfl⟩

/-! ## Workflow canvas (WorkflowBuilder/DragDropCanvas.tsx)

Edges live as the ordered connections list of each node (target node
identifiers); previewData is the object mapping node identifier to the
latest preview payload, updated by object spread. -/

/-- A canvas node, from WorkflowBuilder/types.ts. -/
structure CanvasNode where
  id : String
  type : String
  posX : Int
  posY : Int
  connections : List String
  deriving DecidableEq, Repr

/-- The canvas state touched by the delete button and the preview-update
callback: the node list and the previewData object. -/
structure CanvasState where
  nodes : List CanvasNode
  previewData : List (String × String)
  deriving DecidableEq, Repr

/-- Object-spread update of previewData: replace the value under the key
in place, or append the key when absent. -/
def setPreviewData : List (String × String) → String → String → List (String × String)
  | [], nodeId, d => [(nodeId, d)]
  | (k, v) :: rest, nodeId, d =>
    if k = nodeId then (k, d) :: rest else (k, v) :: setPreviewData rest nodeId d

/-- Key lookup in previewData. -/
def getPreviewData : List (String × String) → String → Option String
  | [], _ => none
  | (k, v) :: rest, t => if k = t then some v else getPreviewData rest t

/-- The delete-node button onClick: filter the node out of the node list
and send a node_deleted frame. No other state is touched. -/
def deleteNodeClick (st : CanvasState) (nodeId : String) : CanvasState × List String :=
  ({ st with nodes := st.nodes.filter (fun n => n.id != nodeId) },
   ["node_deleted " ++ nodeId])

/-- The handlePreviewUpdate callback: store the incoming data under the
node identifier by object spread, unconditionally. -/
def handlePreviewUpdate (st : CanvasState) (nodeId data : String) : CanvasState :=
  { st with previewData := setPreviewData st.previewData nodeId data }

/-- Writing a key into previewData makes lookup of that key return the
written value. -/
theorem getPreviewData_setPreviewData (pd : List (String × String))
    (nodeId d : String) :
    getPreviewData (setPreviewData pd nodeId d) nodeId = some d := by
  induction pd with
  | nil => simp [setPreviewData, getPreviewData]
  | cons kv rest ih =>
    obtain ⟨k, v⟩ := kv
    simp only [setPreviewData]
    by_cases hk : k = nodeId
    · rw [if_pos hk]
      simp [getPreviewData, hk]
    · rw [if_neg hk]
      simp [getPreviewData, hk, ih]

/-- A node keeping a dangling connection to n2 after n2 is deleted. -/
def nodeN1 : CanvasNode :=
  { id := "n1", type := "processor", posX := 0, posY := 0, connections := ["n2"] }

/-- The node that gets deleted in the counterexample. -/
def nodeN2 : CanvasNode :=
  { id := "n2", type := "output", posX := 1, posY := 1, connections := [] }

/-- The concrete canvas of the counterexample: nodes n1 and n2, an edge
n1 to n2 stored on n1, and a loading preview entry for n2. -/
def cexCanvas : CanvasState :=
  { nodes := [nodeN1, nodeN2], previewData := [("n2", "loading")] }

/-- Claim C7 counterexample: deleting n2 leaves the edge n1 to n2 in
place (n1 still lists n2 among its connections), leaves the loading
preview entry for n2 in place, and a subsequently-arriving preview
update for n2 creates fresh preview state for the deleted node. -/
theorem delete_node_cleanup_cex :
    (deleteNodeClick cexCanvas "n2").1.nodes = [nodeN1]
    ∧ "n2" ∈ nodeN1.connections
    ∧ (deleteNodeClick cexCanvas "n2").1.previewData = [("n2", "loading")]
    ∧ getPreviewData
        (handlePreviewUpdate (deleteNodeClick cexCanvas "n2").1
          "n2" "late").previewData "n2"
      = some "late" := by
  refine ⟨?_, ?_, rfl, ?_⟩
  · simp [deleteNodeClick, cexCanvas, nodeN1, nodeN2]
  · simp [nodeN1]
  · simp [handlePreviewUpdate, deleteNodeClick, cexCanvas, setPreviewData,
      getPreviewData]

/-- Claim C7 (amended): deleting a node removes exactly that node from
the node list and sends a node_deleted frame; every surviving node is
kept verbatim, so edges stored as other nodes' connections entries that
reference the deleted node remain; previewData is not touched by the
deletion; and a subsequently-arriving preview update for the deleted
identifier does create preview state for it. -/
theorem delete_node_scope (st : CanvasState) (nodeId data : String) :
    (deleteNodeClick st nodeId).1.nodes = st.nodes.filter (fun n => n.id != nodeId)
    ∧ (deleteNodeClick st nodeId).1.previewData = st.previewData
    ∧ (deleteNodeClick st nodeId).2 = ["node_deleted " ++ nodeId]
    ∧ (∀ n : CanvasNode, n ∈ (deleteNodeClick st nodeId).1.nodes →
        n ∈ st.nodes ∧ n.id ≠ nodeId)
    ∧ getPreviewData (handlePreviewUpdate st nodeId data).previewData nodeId
        = some data := by
  refine ⟨rfl, rfl, rfl, ?_, ?_⟩
  · intro n hn
    have hmem : n ∈ st.nodes.filter (fun n2 => n2.id != nodeId) := hn
    rw [List.mem_filter] at hmem
    refine ⟨hmem.1, ?_⟩
    have hb := hmem.2
    simpa [bne_iff_ne] using hb
  · exact getPreviewData_setPreviewData st.previewData nodeId data

/-- Claim C7 amended-theorem witness: the concrete two-node canvas,
evaluated through the theorem. -/
theorem delete_node_scope_witness :
    (deleteNodeClick cexCanvas "n2").1.nodes
        = cexCanvas.nodes.filter (fun n => n.id != "n2")
    ∧ (∀ n : CanvasNode,
        n ∈ (deleteNodeClick cexCanvas "n2").1.nodes →
        n ∈ cexCanvas.nodes ∧ n.id ≠ "n2")
    ∧ getPreviewData
        (handlePreviewUpdate cexCanvas "n2" "late").previewData "n2"
      = some "late" :=
  ⟨(delete_node_scope cexCanvas "n2" "late").1,
   (delete_node_scope cexCanvas "n2" "late").2.2.2.1,
   (delete_node_scope cexCanvas "n2" "late").2.2.2.2⟩

end KW
